import Mathlib

/-!
Verification of the manilaclient core: shallow embedding of the
version-gated request dispatch mechanism, the experimental-API header
wrapper, the manager list/action primitives and the local validators,
translated from the repository sources, together with theorems settling
the specification claims.
-/

/-! ## Python value model

Search options and request bodies carry Python values.  Only the shapes
that actually occur at the modelled call sites are represented. -/

/-- A scalar Python value as it occurs in search-option dictionaries. -/
inductive PyVal where
  | pstr (s : String)
  | pbool (b : Bool)
  | pint (n : Int)
  | pnone
deriving DecidableEq, Repr

/-- Python truthiness for the values of `PyVal` (empty string, False, 0 and
None are falsy). -/
def truthy : PyVal → Bool
  | .pstr s => s ≠ ""
  | .pbool b => b
  | .pint n => n ≠ 0
  | .pnone => false

/-- Python `str()` applied to a `PyVal`, as `urllib.parse.urlencode` does to
non-string values. -/
def pyStr : PyVal → String
  | .pstr s => s
  | .pbool true => "True"
  | .pbool false => "False"
  | .pint n => toString n
  | .pnone => "None"

/-- A scalar JSON value. -/
inductive JScalar where
  | jnull
  | jbool (b : Bool)
  | jint (n : Int)
  | jstr (s : String)
deriving DecidableEq, Repr

/-- A JSON-like value for request bodies.  The bodies built at the
modelled call sites nest at most one object level (the action parameter
dictionaries hold scalars), so object fields are scalar-valued. -/
inductive JVal where
  | jnull
  | jbool (b : Bool)
  | jint (n : Int)
  | jstr (s : String)
  | jobj (fields : List (String × JScalar))
deriving DecidableEq, Repr

/-! ## Insertion-ordered dictionaries

Python dictionaries preserve insertion order: assigning to an existing key
updates it in place, assigning to a new key appends it.  The managers build
their search options and header maps this way. -/

/-- Assignment `d[k] = v` on an insertion-ordered dictionary. -/
def dictSet {α : Type} : List (String × α) → String → α → List (String × α)
  | [], k, v => [(k, v)]
  | (k0, v0) :: rest, k, v =>
    if k0 == k then (k0, v) :: rest else (k0, v0) :: dictSet rest k v

/-- Lookup `d[k]` on an insertion-ordered dictionary. -/
def dictGet {α : Type} : List (String × α) → String → Option α
  | [], _ => none
  | (k0, v0) :: rest, k => if k0 == k then some v0 else dictGet rest k

/-- Membership test `k in d` on an insertion-ordered dictionary. -/
def dictContains {α : Type} (d : List (String × α)) (k : String) : Bool :=
  d.any (fun p => p.1 == k)

/-! ## Python int() parsing

Used by `Share._validate_ip_range`.  Python `int()` strips surrounding
whitespace and accepts an optional sign followed by digits; underscore
digit grouping is not modelled (no call site in the claims uses it). -/

/-- Python whitespace, as stripped by `int()`. -/
def isSpaceChar (c : Char) : Bool :=
  c == ' ' || c == '\t' || c == '\n' || c == '\r' || c == '\x0b' || c == '\x0c'

/-- Strip leading and trailing whitespace from a character list. -/
def trimChars (cs : List Char) : List Char :=
  ((cs.dropWhile isSpaceChar).reverse.dropWhile isSpaceChar).reverse

/-- Value of a non-empty all-digit character list, if it is one. -/
def digitsVal? (ds : List Char) : Option Nat :=
  if ds.isEmpty then none
  else if ds.all Char.isDigit then
    some (ds.foldl (fun a c => a * 10 + (c.toNat - 48)) 0)
  else none

/-- Python `int()` on the characters of a string, returning `none` where
Python raises `ValueError`. -/
def pyInt? (cs : List Char) : Option Int :=
  match trimChars cs with
  | '+' :: ds => (digitsVal? ds).map Int.ofNat
  | '-' :: ds => (digitsVal? ds).map (fun n => -(n : Int))
  | ds => (digitsVal? ds).map Int.ofNat

/-- Python `s.split(sep)` for a one-character separator: splitting an
empty string yields one empty component, and every separator occurrence
starts a new component. -/
def splitChar (sep : Char) : List Char → List (List Char)
  | [] => [[]]
  | c :: rest =>
    let r := splitChar sep rest
    if c == sep then [] :: r
    else
      match r with
      | [] => [[c]]
      | h :: t => (c :: h) :: t

/-! ## osc/utils.py: extract_properties -/

/-- Python `s.split(c, 1)` when the separator occurs: splits a character
list at the first occurrence of `c`, returning `none` when `c` is absent
(where the source's tuple unpacking raises `ValueError`). -/
def splitOnceChar (c : Char) : List Char → Option (List Char × List Char)
  | [] => none
  | x :: xs =>
    if x == c then some ([], xs)
    else (splitOnceChar c xs).map (fun p => (x :: p.1, p.2))

/-- Recursion of `extract_properties` over the remaining items, carrying the
result dictionary built so far. -/
def extract_properties_go :
    List (String × String) → List String → Except String (List (String × String))
  | acc, [] => .ok acc
  | acc, item :: rest =>
    match splitOnceChar '=' item.toList with
    | none =>
      .error ("Parsing error, expected format \x27key=value\x27 for " ++ item)
    | some (k, v) =>
      let key := String.mk k
      let value := String.mk v
      if dictContains acc key then
        .error ("Argument \x27" ++ key ++ "\x27 is specified twice.")
      else
        extract_properties_go (acc ++ [(key, value)]) rest

/-- Translation of `manilaclient.osc.utils.extract_properties`: each item is
split at the first equals sign; a missing separator or a repeated key raises
`CommandError` (modelled as the error branch). -/
def extract_properties (items : List String) :
    Except String (List (String × String)) :=
  extract_properties_go [] items

/-! ## shares.py: Share._validate_ip_range -/

/-- The generic error message of `Share._validate_ip_range`. -/
def ipFormatMsg : String :=
  "Supported ip format examples:\n\t10.0.0.2, 10.0.0.0/24"

/-- Translation of `Share._validate_ip_range`: split on a slash (more than
two components is an error); when a CIDR component is present it must parse
as an int in `[0, 32]`; the address part must be four dot-separated
components each parsing as an int in `[0, 255]`.  `CommandError` is
modelled as the error branch. -/
def validate_ip_range (ipRange : String) : Except String Unit :=
  let parts := splitChar '/' ipRange.toList
  if parts.length > 2 then .error ipFormatMsg
  else
    let cidrCheck : Except String Unit :=
      if parts.length == 2 then
        match pyInt? (parts.getD 1 []) with
        | some p =>
          if p < 0 || p > 32 then
            .error "IP prefix should be in range from 0 to 32"
          else .ok ()
        | none => .error "IP prefix should be in range from 0 to 32"
      else .ok ()
    match cidrCheck with
    | .error e => .error e
    | .ok _ =>
      let octets := splitChar '.' (parts.getD 0 [])
      if octets.length != 4 then .error ipFormatMsg
      else if octets.all (fun item =>
          match pyInt? item with
          | some n => decide (0 ≤ n) && decide (n ≤ 255)
          | none => false) then .ok ()
      else .error ipFormatMsg

/-! ## shares.py: Share._validate_username

The source matches the regular expression
`[\w\.\-_\x60;\x27\x7b\x7d\[\]\\]{4,32}$` with `re.match`.  The pattern is
a Python 3 str pattern, so its `\w` is Unicode-aware; the word-character
predicate is therefore a parameter of the model, and its ASCII restriction
`asciiWordChar` coincides with it on ASCII inputs.  Pythons `$` anchor
matches at the end of the string or just before one trailing newline, so a
match consumes either the whole string or all of it but a final newline. -/

/-- The restriction of the patterns `\w` class to ASCII: ASCII letters,
digits and the underscore.  On ASCII code points this coincides with the
Unicode-aware `\w` of the source pattern. -/
def asciiWordChar (c : Char) : Bool :=
  c.isAlphanum || c == '_'

/-- Characters matched by the username character class: the patterns word
characters plus the listed specials.  The word-character predicate `w`
stands for the Unicode-aware `\w` of the source pattern. -/
def usernameAllowedChar (w : Char → Bool) (c : Char) : Bool :=
  w c || c == '_' ||
    (".\x2d\x27\x60;\x7b\x7d[]\\".toList.any (fun d => d == c))

/-- Whether `re.match` of the username pattern succeeds on the character
list: between 4 and 32 allowed characters covering the whole string, or
covering all but one final newline. -/
def validUsernameMatchL (w : Char → Bool) (cs : List Char) : Bool :=
  (decide (4 ≤ cs.length) && decide (cs.length ≤ 32)
    && cs.all (usernameAllowedChar w))
  || (decide (5 ≤ cs.length) && decide (cs.length ≤ 33)
    && cs.getLast? == some '\n'
    && cs.dropLast.all (usernameAllowedChar w))

/-- The error message of `Share._validate_username`. -/
def usernameErrMsg : String :=
  "Invalid user or group name. Must be 4-32 characters and " ++
    "consist of alphanumeric characters and " ++
    "special characters ]\x7b.-_\x27\x60;\x7d[\\"

/-- Translation of `Share._validate_username`: raises `CommandError`
(modelled as the error branch) when the regular expression does not match.
The word-character predicate `w` of the pattern is a parameter. -/
def validate_username (w : Char → Bool) (access : String) : Except String Unit :=
  if validUsernameMatchL w access.toList then .ok ()
  else .error usernameErrMsg

/-! ## urllib.parse.urlencode and query-string construction

`urlencode` is applied by `ShareManager.list` to the sorted list of truthy
search-option pairs.  Keys and stringified values are percent-quoted with
`quote_plus`: ASCII alphanumerics and the characters underscore, dot,
hyphen and tilde pass through, a space becomes a plus, every other
character is replaced by the uppercase-hex percent encoding of its UTF-8
bytes. -/

/-- Uppercase hexadecimal digit for a value below 16. -/
def hexDigit (n : Nat) : Char :=
  if n < 10 then Char.ofNat (48 + n) else Char.ofNat (55 + n)

/-- UTF-8 bytes of a Unicode code point, as natural numbers. -/
def utf8Bytes (n : Nat) : List Nat :=
  if n < 128 then [n]
  else if n < 2048 then [192 + n / 64, 128 + n % 64]
  else if n < 65536 then [224 + n / 4096, 128 + (n / 64) % 64, 128 + n % 64]
  else [240 + n / 262144, 128 + (n / 4096) % 64, 128 + (n / 64) % 64,
    128 + n % 64]

/-- Characters that `quote_plus` passes through unquoted. -/
def quoteSafeChar (c : Char) : Bool :=
  c.isAlphanum || c == '_' || c == '.' || c == '-' || c == '~'

/-- Python `urllib.parse.quote_plus` with an empty safe set, as used by
`urlencode`. -/
def quote_plus (s : String) : String :=
  String.join (s.toList.map (fun c =>
    if c == ' ' then "+"
    else if quoteSafeChar c then String.singleton c
    else String.join ((utf8Bytes c.toNat).map (fun b =>
      "%" ++ String.singleton (hexDigit (b / 16)) ++
        String.singleton (hexDigit (b % 16))))))

/-- Python `urllib.parse.urlencode` on a list of key/value pairs. -/
def urlencode (pairs : List (String × PyVal)) : String :=
  String.intercalate "&" (pairs.map (fun p =>
    quote_plus p.1 ++ "=" ++ quote_plus (pyStr p.2)))

/-- Lexicographic comparison of character lists by code point, as Python
compares strings. -/
def charListLe : List Char → List Char → Bool
  | [], _ => true
  | _ :: _, [] => false
  | a :: as, b :: bs =>
    if a < b then true else if b < a then false else charListLe as bs

/-- Python string comparison, lexicographic by code point. -/
def strLe (a b : String) : Bool := charListLe a.toList b.toList

/-- Ordering of search-option pairs by key, as Python `sorted` orders the
`(k, v)` tuples of a dictionary (keys are distinct, so the value component
never takes part in the comparison). -/
def keyLE (p q : String × PyVal) : Prop := strLe p.1 q.1 = true

instance : DecidableRel keyLE := fun p q =>
  inferInstanceAs (Decidable (strLe p.1 q.1 = true))

instance : IsTotal (String × PyVal) keyLE :=
  ⟨fun p q => by
    unfold keyLE strLe
    generalize p.1.toList = as
    generalize q.1.toList = bs
    induction as generalizing bs with
    | nil => left; rfl
    | cons a as ih =>
      cases bs with
      | nil => right; rfl
      | cons b bs =>
        rcases lt_trichotomy a b with h | h | h
        · left; simp [charListLe, h]
        · subst h
          rcases ih bs with hh | hh
          · left; simp [charListLe, lt_irrefl, hh]
          · right; simp [charListLe, lt_irrefl, hh]
        · right; simp [charListLe, h]⟩

instance : IsTrans (String × PyVal) keyLE :=
  ⟨fun p q r h1 h2 => by
    unfold keyLE strLe at h1 h2 ⊢
    revert h1 h2
    generalize p.1.toList = as
    generalize q.1.toList = bs
    generalize r.1.toList = cs
    induction as generalizing bs cs with
    | nil => intro _ _; rfl
    | cons a as ih =>
      intro h1 h2
      cases bs with
      | nil => simp [charListLe] at h1
      | cons b bs =>
        cases cs with
        | nil => simp [charListLe] at h2
        | cons c cs =>
          rcases lt_trichotomy a b with hab | hab | hab
          · rcases lt_trichotomy b c with hbc | hbc | hbc
            · simp [charListLe, lt_trans hab hbc]
            · subst hbc; simp [charListLe, hab]
            · simp [charListLe, lt_asymm hbc, hbc] at h2
          · subst hab
            rcases lt_trichotomy a c with hac | hac | hac
            · simp [charListLe, hac]
            · subst hac
              simp only [charListLe, lt_irrefl, if_false] at h1 h2 ⊢
              exact ih bs cs h1 h2
            · simp [charListLe, lt_asymm hac, hac] at h2
          · simp [charListLe, lt_asymm hab, hab] at h1⟩

/-- Python `sorted` on the pair list: a stable sort by key. -/
def sortPairs (l : List (String × PyVal)) : List (String × PyVal) :=
  l.insertionSort keyLE

/-- The pairs `ShareManager.list` encodes (source lines 346-347): the
truthy search-option pairs, sorted by key. -/
def shareListQueryPairs (opts : List (String × PyVal)) : List (String × PyVal) :=
  sortPairs (opts.filter (fun kv => truthy kv.2))

/-- Query-string construction of `ShareManager.list` (source lines
345-351): the encoding of the sorted truthy pairs, prefixed by a question
mark when non-empty. -/
def shareListQueryString (opts : List (String × PyVal)) : String :=
  let q := urlencode (shareListQueryPairs opts)
  if q == "" then "" else "?" ++ q

/-- Modelled from the spec: the query-string builder `_build_query_string`
of `base.Manager` (base.py is not in src), used by the share-group
managers.  Per the spec, falsy values are dropped and the remaining pairs
are sorted lexicographically by key before encoding; an empty parameter
list yields an empty string. -/
def build_query_string (opts : List (String × PyVal)) : String :=
  let params := sortPairs (opts.filter (fun kv => truthy kv.2))
  if params.isEmpty then "" else "?" ++ urlencode params

/-! ## HTTP requests

The transport collaborator is consumed through get/post/delete with a path
and an optional JSON body; an issued request is represented by this type. -/

/-- One HTTP request handed to the transport collaborator. -/
inductive Request where
  | get (path : String)
  | post (path : String) (body : List (String × JVal))
  | delete (path : String)
deriving DecidableEq, Repr

/-! ## Manager list operations

`ShareManager.list` (shares.py lines 290-358) and the share-group list
operations validate sort parameters against allow-lists before any request
is issued.  The allow-list constants live in `manilaclient.common.constants`
which is not in src, so the sort-key allow-list is an explicit parameter. -/

/-- Modelled from the spec: `constants.SORT_DIR_VALUES`; the spec fixes the
sort-direction allow-list to asc and desc. -/
def SORT_DIR_VALUES : List String := ["asc", "desc"]

/-- Sort-key validation block of `ShareManager.list` (lines 321-333):
membership in the allow-list stores the key, with the three aliases
replaced by their id forms; otherwise a `ValueError` is raised (the error
branch). -/
def shareListSortKeyCheck (sortKeyValues : List String)
    (opts : List (String × PyVal)) (sortKey : Option String) :
    Except String (List (String × PyVal)) :=
  match sortKey with
  | none => .ok opts
  | some sk =>
    if sortKeyValues.contains sk then
      let opts := dictSet opts "sort_key" (PyVal.pstr sk)
      let opts :=
        if sk == "share_type" then
          dictSet opts "sort_key" (PyVal.pstr "share_type_id")
        else if sk == "snapshot" then
          dictSet opts "sort_key" (PyVal.pstr "snapshot_id")
        else if sk == "share_network" then
          dictSet opts "sort_key" (PyVal.pstr "share_network_id")
        else opts
      .ok opts
    else
      .error ("sort_key must be one of the following: " ++
        String.intercalate ", " sortKeyValues ++ ".")

/-- Sort-key validation block of the share-group list operations (no alias
replacement). -/
def groupListSortKeyCheck (sortKeyValues : List String)
    (opts : List (String × PyVal)) (sortKey : Option String) :
    Except String (List (String × PyVal)) :=
  match sortKey with
  | none => .ok opts
  | some sk =>
    if sortKeyValues.contains sk then
      .ok (dictSet opts "sort_key" (PyVal.pstr sk))
    else
      .error ("sort_key must be one of the following: " ++
        String.intercalate ", " sortKeyValues ++ ".")

/-- Sort-direction validation block shared by all the list operations
(shares.py lines 335-340). -/
def sortDirCheck (opts : List (String × PyVal)) (sortDir : Option String) :
    Except String (List (String × PyVal)) :=
  match sortDir with
  | none => .ok opts
  | some sd =>
    if SORT_DIR_VALUES.contains sd then
      .ok (dictSet opts "sort_dir" (PyVal.pstr sd))
    else
      .error ("sort_dir must be one of the following: " ++
        String.intercalate ", " SORT_DIR_VALUES ++ ".")

/-- Translation of `ShareManager.list`: validates the sort parameters,
defaults `is_public` to True, builds the query string and issues one GET;
an error is raised before any request exists. -/
def shareList (sortKeyValues : List String) (detailed : Bool)
    (searchOpts : Option (List (String × PyVal)))
    (sortKey : Option String) (sortDir : Option String) :
    Except String Request :=
  let opts := searchOpts.getD []
  match shareListSortKeyCheck sortKeyValues opts sortKey with
  | .error e => .error e
  | .ok opts1 =>
    match sortDirCheck opts1 sortDir with
    | .error e => .error e
    | .ok opts2 =>
      let opts3 :=
        if dictContains opts2 "is_public" then opts2
        else dictSet opts2 "is_public" (PyVal.pbool true)
      let qs := if opts3.isEmpty then "" else shareListQueryString opts3
      .ok (Request.get (if detailed then "/shares/detail" ++ qs
        else "/shares" ++ qs))

/-- Translation of `ShareGroupReplicaManager.list`: a truthy share-group
argument adds its id under the key share_id (source line 111), the sort
parameters are validated, and one GET is issued on the replica paths. -/
def shareGroupReplicaList (sortKeyValues : List String)
    (shareGroup : Option String) (detailed : Bool)
    (searchOpts : Option (List (String × PyVal)))
    (sortKey : Option String) (sortDir : Option String) :
    Except String Request :=
  let opts := searchOpts.getD []
  let opts :=
    match shareGroup with
    | some g => if g ≠ "" then dictSet opts "share_id" (PyVal.pstr g) else opts
    | none => opts
  match groupListSortKeyCheck sortKeyValues opts sortKey with
  | .error e => .error e
  | .ok opts1 =>
    match sortDirCheck opts1 sortDir with
    | .error e => .error e
    | .ok opts2 =>
      let qs := build_query_string opts2
      .ok (Request.get (if detailed then "/share-group-replicas/detail" ++ qs
        else "/share-group-replicas" ++ qs))

/-- Translation of `ShareGroupInstanceManager.list`: identical shape, but a
truthy share-group argument adds its id under the key share_group_id
(source line 87). -/
def shareGroupInstanceList (sortKeyValues : List String)
    (shareGroup : Option String) (detailed : Bool)
    (searchOpts : Option (List (String × PyVal)))
    (sortKey : Option String) (sortDir : Option String) :
    Except String Request :=
  let opts := searchOpts.getD []
  let opts :=
    match shareGroup with
    | some g =>
      if g ≠ "" then dictSet opts "share_group_id" (PyVal.pstr g) else opts
    | none => opts
  match groupListSortKeyCheck sortKeyValues opts sortKey with
  | .error e => .error e
  | .ok opts1 =>
    match sortDirCheck opts1 sortDir with
    | .error e => .error e
    | .ok opts2 =>
      let qs := build_query_string opts2
      .ok (Request.get (if detailed then "/share-group-instances/detail" ++ qs
        else "/share-group-instances" ++ qs))

/-! ## Manager action primitives

`ShareManager._action` (shares.py lines 491-502) builds the body
`{action: info}`, runs the hook callbacks registered under the name
modify_body_for_action over it, and posts to the action sub-path.
`ShareGroupReplicaManager._action` (share_group_replicas.py lines 156-167)
builds the same body and posts to its action sub-path, but contains no
hook invocation at all.  The manager state relevant to these primitives is
its ordered hook registration list, passed explicitly below. -/

/-- A request body, as the hooks see it. -/
abbrev Body := List (String × JVal)

/-- Modelled from the spec: `base.Manager.run_hooks` (base.py is not in
src).  The hook callbacks registered for modify-body-for-action are
invoked on the body in registration order, each allowed to rewrite it. -/
def run_hooks (hooks : List (Body → Body)) (body : Body) : Body :=
  hooks.foldl (fun b h => h b) body

/-- Translation of `ShareManager._action`: body `{action: info}` with
`info` defaulting to null, hooks run over the body, then one POST to
`/shares/<id>/action`. -/
def shareManagerAction (hooks : List (Body → Body)) (action : String)
    (share : String) (info : JVal := JVal.jnull) : Request :=
  let body : Body := [(action, info)]
  let body := run_hooks hooks body
  Request.post ("/shares/" ++ share ++ "/action") body

/-- Translation of `ShareGroupReplicaManager._action`: one POST of the
body `{action: info}` to `/share-group-replicas/<id>/action`.  The hook
registrations of the manager are an argument, but the source method never
consults them. -/
def shareGroupReplicaAction (hooks : List (Body → Body))
    (shareGroupReplica : String) (action : String)
    (info : JVal := JVal.jnull) : Request :=
  Request.post ("/share-group-replicas/" ++ shareGroupReplica ++ "/action")
    [(action, info)]

/-- A hook that rewrites any body to a fixed replacement, used to exhibit
that the share-group action primitive ignores registered hooks. -/
def replaceBodyHook : Body → Body := fun _ => [("modified", JVal.jnull)]

/-! ## api_versions.py: experimental_api

The wrapper checks whether the first argument is an instance of the
recognized v1 client class; if so it sets the experimental header to the
string true in the shared default-headers mapping of that clients
transport, and then invokes the wrapped function; its own return value is
Pythons implicit None. -/

/-- The calling client as the wrapper sees it: the outcome of the
isinstance check against the recognized v1 client class, and the shared
mutable default-headers mapping of its transport. -/
structure ClientState where
  isV1Client : Bool
  defaultHeaders : List (String × String)
deriving DecidableEq, Repr

/-- Modelled from the spec: `constants.EXPERIMENTAL_HTTP_HEADER` (the
constants module is not in src); the spec names the header
X-Openstack-Manila-Api-Experimental. -/
def EXPERIMENTAL_HTTP_HEADER : String := "X-Openstack-Manila-Api-Experimental"

/-- The header mutation of `experimental_api` performed before the wrapped
function is invoked (api_versions.py lines 22-25): a recognized client has
the experimental header set to true in its shared default headers, any
other client is left untouched. -/
def experimentalPre (st : ClientState) : ClientState :=
  if st.isV1Client then
    { st with defaultHeaders :=
        dictSet st.defaultHeaders EXPERIMENTAL_HTTP_HEADER "true" }
  else st

/-- Translation of `experimental_api._decorator` (api_versions.py lines
21-27): perform the header mutation, invoke the wrapped function on the
resulting state, propagate its state effect, and return Pythons implicit
None (the inner return value is discarded because line 26 has no return
statement). -/
def experimental_api (f : ClientState → ClientState × JVal)
    (st : ClientState) : ClientState × JVal :=
  let st1 := experimentalPre st
  ((f st1).1, JVal.jnull)

/-! ## api_versions.py: the version dispatcher

Modelled from the spec: `api_versions.wraps`, `APIVersion` and the
versioned-method registry are part of api_versions.py that is not in src
(only the `experimental_api` wrapper is).  Per the spec, an APIVersion is
a two-component version with total ordering, a registered method carries
an inclusive start version and an optional inclusive end version (absent
meaning unbounded), and dispatch walks the registration list in order,
invoking the first method whose window contains the callers version, or
fails with VersionNotFoundForAPIMethod when none does. -/

/-- A two-component API version. -/
structure APIVersion where
  major : Nat
  minor : Nat
deriving DecidableEq, Repr

/-- Total order on API versions: by major component, then minor. -/
def APIVersion.ble (a b : APIVersion) : Bool :=
  a.major < b.major || (a.major == b.major && a.minor ≤ b.minor)

/-- One registered implementation of a version-gated operation. -/
structure VersionedMethod (α : Type) where
  name : String
  startVersion : APIVersion
  endVersion : Option APIVersion
  func : α

/-- Whether the inclusive window of a registered method contains the
version: the start bound must hold, and the end bound holds vacuously when
the window is unbounded. -/
def VersionedMethod.matchesVersion {α : Type} (m : VersionedMethod α)
    (v : APIVersion) : Bool :=
  m.startVersion.ble v &&
    (match m.endVersion with
     | none => true
     | some e => v.ble e)

/-- Dispatch over the registration list: first matching window wins, no
matching window raises VersionNotFoundForAPIMethod (the error branch) and
invokes nothing. -/
def dispatch {α : Type} (ms : List (VersionedMethod α)) (v : APIVersion) :
    Except String α :=
  match ms with
  | [] => .error "VersionNotFoundForAPIMethod"
  | m :: rest => if m.matchesVersion v then .ok m.func else dispatch rest v

/-- The `[1.0, 2.6]` implementation of `ShareManager.force_delete`
(shares.py lines 379-381): posts the action os-force_delete via
`_do_force_delete` and `_action`. -/
def forceDeleteImplOld (hooks : List (Body → Body)) (share : String) :
    Request :=
  shareManagerAction hooks "os-force_delete" share JVal.jnull

/-- The `[2.7, unbounded]` implementation of `ShareManager.force_delete`
(shares.py lines 383-385): posts the action force_delete. -/
def forceDeleteImplNew (hooks : List (Body → Body)) (share : String) :
    Request :=
  shareManagerAction hooks "force_delete" share JVal.jnull

/-- The registered version windows of `ShareManager.force_delete`
(shares.py lines 379-385): `[1.0, 2.6]` and `[2.7, unbounded]`, in
registration order. -/
def forceDeleteMethods :
    List (VersionedMethod (List (Body → Body) → String → Request)) :=
  [⟨"force_delete", ⟨1, 0⟩, some ⟨2, 6⟩, forceDeleteImplOld⟩,
   ⟨"force_delete", ⟨2, 7⟩, none, forceDeleteImplNew⟩]

/-- The `[2.5, 2.6]` implementation of `ShareManager.migrate_share`
(shares.py lines 201-204): posts the action os-migrate_share with the
host and force-host-copy parameters. -/
def migrateShareImplOld (hooks : List (Body → Body)) (share : String)
    (host : String) (forceHostCopy : Bool) : Request :=
  shareManagerAction hooks "os-migrate_share" share
    (JVal.jobj [("host", .jstr host), ("force_host_copy", .jbool forceHostCopy)])

/-- The `[2.7, unbounded]` implementation of `ShareManager.migrate_share`
(shares.py lines 206-209): posts the action migrate_share. -/
def migrateShareImplNew (hooks : List (Body → Body)) (share : String)
    (host : String) (forceHostCopy : Bool) : Request :=
  shareManagerAction hooks "migrate_share" share
    (JVal.jobj [("host", .jstr host), ("force_host_copy", .jbool forceHostCopy)])

/-- The registered version windows of `ShareManager.migrate_share`
(shares.py lines 201-209): `[2.5, 2.6]` and `[2.7, unbounded]`. -/
def migrateShareMethods :
    List (VersionedMethod
      (List (Body → Body) → String → String → Bool → Request)) :=
  [⟨"migrate_share", ⟨2, 5⟩, some ⟨2, 6⟩, migrateShareImplOld⟩,
   ⟨"migrate_share", ⟨2, 7⟩, none, migrateShareImplNew⟩]

/-! ## Helper lemmas -/

/-- Dictionary assignment followed by lookup of the same key yields the
assigned value. -/
theorem dictGet_dictSet {α : Type} (d : List (String × α)) (k : String) (v : α) :
    dictGet (dictSet d k v) k = some v := by
  induction d with
  | nil => simp [dictSet, dictGet]
  | cons p rest ih =>
    obtain ⟨k0, v0⟩ := p
    by_cases h : k0 == k
    · simp [dictSet, dictGet, h]
    · simp [dictSet, dictGet, h, ih]

/-- Hooks registered in two batches run in registration order: the second
batch is applied to the result of the first. -/
theorem run_hooks_append (h1 h2 : List (Body → Body)) (b : Body) :
    run_hooks (h1 ++ h2) b = run_hooks h2 (run_hooks h1 b) :=
  List.foldl_append _ _ _ _

/-! ## Claim theorems -/

/-- C6: query-string construction for list operations drops every filter
pair whose value is falsy and encodes the remaining pairs sorted
lexicographically by key, so the filter mapping with status available, b
empty and a x produces the query string a=x&status=available. -/
theorem query_string_construction :
    urlencode (shareListQueryPairs
      [("status", .pstr "available"), ("b", .pstr ""), ("a", .pstr "x")])
      = "a=x&status=available"
    ∧ (∀ opts : List (String × PyVal),
      (shareListQueryPairs opts).Perm (opts.filter (fun kv => truthy kv.2)))
    ∧ (∀ opts : List (String × PyVal),
      List.Sorted keyLE (shareListQueryPairs opts)) :=
  ⟨by decide,
   fun _ => List.perm_insertionSort keyLE _,
   fun _ => List.sorted_insertionSort keyLE _⟩

/-- C7: parsing key=value strings maps a=1, b=2 to the corresponding
dictionary, raises CommandError on a duplicate key, and raises
CommandError on an element without an equals separator. -/
theorem extract_properties_spec :
    extract_properties ["a=1", "b=2"] = .ok [("a", "1"), ("b", "2")]
    ∧ extract_properties ["a=1", "a=2"]
        = .error "Argument \x27a\x27 is specified twice."
    ∧ extract_properties ["bogus"]
        = .error "Parsing error, expected format \x27key=value\x27 for bogus" :=
  ⟨rfl, rfl, rfl⟩

/-- C8: IP-range validation accepts 10.0.0.2 and 10.0.0.0/24, and raises
CommandError for a prefix above 32, for fewer than four dotted octets, and
for an octet above 255. -/
theorem validate_ip_range_examples :
    validate_ip_range "10.0.0.2" = .ok ()
    ∧ validate_ip_range "10.0.0.0/24" = .ok ()
    ∧ validate_ip_range "10.0.0.0/33"
        = .error "IP prefix should be in range from 0 to 32"
    ∧ validate_ip_range "10.0.0" = .error ipFormatMsg
    ∧ validate_ip_range "999.0.0.1" = .error ipFormatMsg :=
  ⟨rfl, rfl, rfl, rfl, rfl⟩

/-- C9 counterexample: the string abcd followed by a newline contains a
character outside the allowed class, yet username validation accepts it,
because the end anchor of the pattern matches just before a trailing
newline.  The input is pure ASCII, where the ASCII word-character
predicate coincides with the patterns Unicode-aware one, so this
instantiation is exact on this input. -/
theorem validate_username_trailing_newline_cex :
    "abcd\n".toList.all (usernameAllowedChar asciiWordChar) = false
    ∧ validate_username asciiWordChar "abcd\n" = .ok () :=
  ⟨rfl, rfl⟩

/-- C9 amended: for any word-character predicate (in particular the
Unicode-aware one of the source pattern), username validation accepts
every string of 4 to 32 characters drawn from the resulting allowed
character class and raises CommandError for every 3-character string; it
raises CommandError for every string containing a character outside that
class, except strings made of 4 to 32 allowed characters followed by one
trailing newline, which it accepts because the pattern anchor matches
before a trailing newline. -/
theorem validate_username_amended :
    (∀ (w : Char → Bool) (s : String),
      4 ≤ s.toList.length → s.toList.length ≤ 32 →
      s.toList.all (usernameAllowedChar w) = true →
      validate_username w s = .ok ())
    ∧ (∀ (w : Char → Bool) (s : String), s.toList.length = 3 →
      validate_username w s = .error usernameErrMsg)
    ∧ (∀ (w : Char → Bool) (s : String),
      s.toList.all (usernameAllowedChar w) = false →
      ¬(s.toList.getLast? = some '\n'
        ∧ s.toList.dropLast.all (usernameAllowedChar w) = true
        ∧ 5 ≤ s.toList.length ∧ s.toList.length ≤ 33) →
      validate_username w s = .error usernameErrMsg) := by
  refine ⟨?_, ?_, ?_⟩
  · intro w s h1 h2 h3
    have hv : validUsernameMatchL w s.toList = true := by
      unfold validUsernameMatchL
      simp only [Bool.or_eq_true, Bool.and_eq_true, decide_eq_true_eq]
      exact Or.inl ⟨⟨h1, h2⟩, h3⟩
    unfold validate_username
    rw [hv]
    rfl
  · intro w s h
    have hv : validUsernameMatchL w s.toList = false := by
      unfold validUsernameMatchL
      rw [h]
      rfl
    unfold validate_username
    rw [hv]
    rfl
  · intro w s hall hexc
    have hv : validUsernameMatchL w s.toList = false := by
      rw [Bool.eq_false_iff]
      intro htrue
      unfold validUsernameMatchL at htrue
      simp only [Bool.or_eq_true, Bool.and_eq_true, decide_eq_true_eq,
        beq_iff_eq] at htrue
      rcases htrue with ⟨-, hcontra⟩ | ⟨⟨⟨h5, h33⟩, hlast⟩, hdrop⟩
      · rw [hall] at hcontra
        exact Bool.false_ne_true hcontra
      · exact hexc ⟨hlast, hdrop, h5, h33⟩
    unfold validate_username
    rw [hv]
    rfl

/-- C9 witness: the amended acceptance clause applied to a concrete
4-character ASCII username, with the word-character predicate instantiated
at its ASCII restriction. -/
theorem validate_username_amended_witness :
    validate_username asciiWordChar "user" = .ok () :=
  validate_username_amended.1 asciiWordChar "user"
    (by decide) (by decide) (by decide)

/-- C4 counterexample: with one body-rewriting hook registered, the
share-group-replica action primitive posts the unmodified body, not the
hook-rewritten body the claim requires of every manager. -/
theorem group_replica_action_ignores_hooks_cex :
    shareGroupReplicaAction [replaceBodyHook] "r1" "promote" JVal.jnull
      ≠ Request.post "/share-group-replicas/r1/action"
          (run_hooks [replaceBodyHook] [("promote", JVal.jnull)]) := by
  decide

/-- C4 amended: the ShareManager action primitive issues exactly one POST
to /shares/id/action whose body is the mapping of the action name to info
(info defaulting to null) rewritten by every modify-body-for-action hook
in registration order, and two hook batches registered in sequence apply
in that sequence; the share-group-replica action primitive issues exactly
one POST of the unrewritten body to its action sub-path, invoking no hook. -/
theorem action_post_and_hooks_amended :
    (∀ (hooks : List (Body → Body)) (action share : String) (info : JVal),
      shareManagerAction hooks action share info
        = Request.post ("/shares/" ++ share ++ "/action")
            (run_hooks hooks [(action, info)]))
    ∧ (∀ (hooks : List (Body → Body)) (action share : String),
      shareManagerAction hooks action share
        = Request.post ("/shares/" ++ share ++ "/action")
            (run_hooks hooks [(action, JVal.jnull)]))
    ∧ (∀ (h1 h2 : List (Body → Body)) (b : Body),
      run_hooks (h1 ++ h2) b = run_hooks h2 (run_hooks h1 b))
    ∧ (∀ (hooks : List (Body → Body)) (replica action : String) (info : JVal),
      shareGroupReplicaAction hooks replica action info
        = Request.post ("/share-group-replicas/" ++ replica ++ "/action")
            [(action, info)]) :=
  ⟨fun _ _ _ _ => rfl, fun _ _ _ => rfl,
   fun h1 h2 b => run_hooks_append h1 h2 b,
   fun _ _ _ _ => rfl⟩

/-- C2: when the calling client is recognized as the v1 client variant,
the experimental wrapper sets the experimental header to true in the
shared default-headers mapping before the wrapped function is invoked and
performs no header change after it, so a call-preserving transport keeps
the header set afterwards; an unrecognized client has its headers left
completely unchanged while the wrapped function is still invoked. -/
theorem experimental_api_header_effect :
    (∀ st : ClientState, st.isV1Client = true →
      dictGet (experimentalPre st).defaultHeaders EXPERIMENTAL_HTTP_HEADER
        = some "true")
    ∧ (∀ (f : ClientState → ClientState × JVal) (st : ClientState),
      (experimental_api f st).1 = (f (experimentalPre st)).1)
    ∧ (∀ (f : ClientState → ClientState × JVal) (st : ClientState),
      st.isV1Client = true →
      (∀ s, (f s).1.defaultHeaders = s.defaultHeaders) →
      dictGet (experimental_api f st).1.defaultHeaders
        EXPERIMENTAL_HTTP_HEADER = some "true")
    ∧ (∀ st : ClientState, st.isV1Client = false → experimentalPre st = st)
    ∧ (∀ (f : ClientState → ClientState × JVal) (st : ClientState),
      st.isV1Client = false → (experimental_api f st).1 = (f st).1) := by
  refine ⟨?_, ?_, ?_, ?_, ?_⟩
  · intro st h
    unfold experimentalPre
    rw [h]
    simp only [if_true]
    exact dictGet_dictSet st.defaultHeaders EXPERIMENTAL_HTTP_HEADER "true"
  · intro f st
    rfl
  · intro f st h hf
    show dictGet (f (experimentalPre st)).1.defaultHeaders
      EXPERIMENTAL_HTTP_HEADER = some "true"
    rw [hf (experimentalPre st)]
    unfold experimentalPre
    rw [h]
    simp only [if_true]
    exact dictGet_dictSet st.defaultHeaders EXPERIMENTAL_HTTP_HEADER "true"
  · intro st h
    unfold experimentalPre
    rw [h]
    rfl
  · intro f st h
    show (f (experimentalPre st)).1 = (f st).1
    unfold experimentalPre
    rw [h]
    rfl

/-- C2 witness: the header effect at a concrete recognized client and the
no-change clause at a concrete unrecognized client. -/
theorem experimental_api_header_effect_witness :
    dictGet (experimentalPre ⟨true, []⟩).defaultHeaders
      EXPERIMENTAL_HTTP_HEADER = some "true"
    ∧ experimentalPre ⟨false, [("Accept", "application/json")]⟩
        = ⟨false, [("Accept", "application/json")]⟩ :=
  ⟨experimental_api_header_effect.1 ⟨true, []⟩ rfl,
   experimental_api_header_effect.2.2.2.1
     ⟨false, [("Accept", "application/json")]⟩ rfl⟩

/-- C3: the experimental wrapper discards the return value of the wrapped
function and always returns None (null), whatever the inner implementation
returns; in particular an inner call returning a resource object still
yields None to the caller. -/
theorem experimental_api_returns_none :
    (∀ (f : ClientState → ClientState × JVal) (st : ClientState),
      (experimental_api f st).2 = JVal.jnull)
    ∧ (∀ st : ClientState,
      (experimental_api (fun s => (s, JVal.jstr "share_group_replica")) st).2
        = JVal.jnull) :=
  ⟨fun _ _ => rfl, fun _ => rfl⟩

/-- C5: for the share list and the share-group-replica list operations, a
non-None sort key outside the resource allow-list, or a non-None sort
direction outside asc/desc, makes the call fail with InvalidInput (a
ValueError, the error branch) and no HTTP request is produced. -/
theorem list_sort_validation_errors :
    (∀ (kvs : List String) (detailed : Bool)
        (opts : Option (List (String × PyVal))) (k : String)
        (sd : Option String),
      kvs.contains k = false →
      ∃ msg, shareList kvs detailed opts (some k) sd = .error msg)
    ∧ (∀ (kvs : List String) (detailed : Bool)
        (opts : Option (List (String × PyVal))) (sk : Option String)
        (d : String),
      SORT_DIR_VALUES.contains d = false →
      ∃ msg, shareList kvs detailed opts sk (some d) = .error msg)
    ∧ (∀ (kvs : List String) (shareGroup : Option String) (detailed : Bool)
        (opts : Option (List (String × PyVal))) (k : String)
        (sd : Option String),
      kvs.contains k = false →
      ∃ msg, shareGroupReplicaList kvs shareGroup detailed opts (some k) sd
        = .error msg)
    ∧ (∀ (kvs : List String) (shareGroup : Option String) (detailed : Bool)
        (opts : Option (List (String × PyVal))) (sk : Option String)
        (d : String),
      SORT_DIR_VALUES.contains d = false →
      ∃ msg, shareGroupReplicaList kvs shareGroup detailed opts sk (some d)
        = .error msg) := by
  refine ⟨?_, ?_, ?_, ?_⟩
  · intro kvs detailed opts k sd hk
    simp at hk
    have h : shareList kvs detailed opts (some k) sd
        = .error ("sort_key must be one of the following: "
          ++ String.intercalate ", " kvs ++ ".") := by
      simp [shareList, shareListSortKeyCheck, hk]
    exact ⟨_, h⟩
  · intro kvs detailed opts sk d hd
    simp at hd
    cases sk with
    | none =>
      have h : shareList kvs detailed opts none (some d)
          = .error ("sort_dir must be one of the following: "
            ++ String.intercalate ", " SORT_DIR_VALUES ++ ".") := by
        simp [shareList, shareListSortKeyCheck, sortDirCheck, hd]
      exact ⟨_, h⟩
    | some k =>
      by_cases hk : k ∈ kvs
      · have h : shareList kvs detailed opts (some k) (some d)
            = .error ("sort_dir must be one of the following: "
              ++ String.intercalate ", " SORT_DIR_VALUES ++ ".") := by
          simp [shareList, shareListSortKeyCheck, sortDirCheck, hk, hd]
        exact ⟨_, h⟩
      · have h : shareList kvs detailed opts (some k) (some d)
            = .error ("sort_key must be one of the following: "
              ++ String.intercalate ", " kvs ++ ".") := by
          simp [shareList, shareListSortKeyCheck, hk]
        exact ⟨_, h⟩
  · intro kvs shareGroup detailed opts k sd hk
    simp at hk
    have h : shareGroupReplicaList kvs shareGroup detailed opts (some k) sd
        = .error ("sort_key must be one of the following: "
          ++ String.intercalate ", " kvs ++ ".") := by
      simp [shareGroupReplicaList, groupListSortKeyCheck, hk]
    exact ⟨_, h⟩
  · intro kvs shareGroup detailed opts sk d hd
    simp at hd
    cases sk with
    | none =>
      have h : shareGroupReplicaList kvs shareGroup detailed opts none (some d)
          = .error ("sort_dir must be one of the following: "
            ++ String.intercalate ", " SORT_DIR_VALUES ++ ".") := by
        simp [shareGroupReplicaList, groupListSortKeyCheck, sortDirCheck, hd]
      exact ⟨_, h⟩
    | some k =>
      by_cases hk : k ∈ kvs
      · have h : shareGroupReplicaList kvs shareGroup detailed opts
            (some k) (some d)
            = .error ("sort_dir must be one of the following: "
              ++ String.intercalate ", " SORT_DIR_VALUES ++ ".") := by
          simp [shareGroupReplicaList, groupListSortKeyCheck, sortDirCheck,
            hk, hd]
        exact ⟨_, h⟩
      · have h : shareGroupReplicaList kvs shareGroup detailed opts
            (some k) (some d)
            = .error ("sort_key must be one of the following: "
              ++ String.intercalate ", " kvs ++ ".") := by
          simp [shareGroupReplicaList, groupListSortKeyCheck, hk]
        exact ⟨_, h⟩

/-- C5 witness: the validation errors at concrete invalid sort parameters. -/
theorem list_sort_validation_errors_witness :
    (∃ msg, shareList ["status"] true none (some "bogus") none = .error msg)
    ∧ (∃ msg, shareGroupReplicaList ["status"] none true none none (some "up")
      = .error msg) :=
  ⟨list_sort_validation_errors.1 ["status"] true none "bogus" none (by decide),
   list_sort_validation_errors.2.2.2 ["status"] none true none none "up"
     (by decide)⟩

/-- C10: a share-group argument to the share-group-replica list operation
is filed under the search key share_id, so the issued query string carries
share_id and not share_group_id, while the share-group-instance list
operation files the same argument under share_group_id. -/
theorem group_filter_key_difference :
    (∀ gid : String, gid ≠ "" →
      shareGroupReplicaList [] (some gid) true none none none
        = .ok (Request.get ("/share-group-replicas/detail"
            ++ build_query_string [("share_id", PyVal.pstr gid)])))
    ∧ (∀ gid : String, gid ≠ "" →
      shareGroupInstanceList [] (some gid) true none none none
        = .ok (Request.get ("/share-group-instances/detail"
            ++ build_query_string [("share_group_id", PyVal.pstr gid)])))
    ∧ shareGroupReplicaList [] (some "grp1") true none none none
        = .ok (Request.get "/share-group-replicas/detail?share_id=grp1")
    ∧ shareGroupInstanceList [] (some "grp1") true none none none
        = .ok (Request.get "/share-group-instances/detail?share_group_id=grp1") := by
  refine ⟨?_, ?_, rfl, rfl⟩
  · intro gid h
    simp [shareGroupReplicaList, groupListSortKeyCheck, sortDirCheck,
      dictSet, h]
  · intro gid h
    simp [shareGroupInstanceList, groupListSortKeyCheck, sortDirCheck,
      dictSet, h]

/-- C10 witness: the general replica clause applied at a concrete group
id. -/
theorem group_filter_key_difference_witness :
    shareGroupReplicaList [] (some "grp1") true none none none
      = .ok (Request.get ("/share-group-replicas/detail"
          ++ build_query_string [("share_id", PyVal.pstr "grp1")])) :=
  group_filter_key_difference.1 "grp1" (by decide)

/-- When exactly one registered method matches the version, dispatch
selects it whatever its position in the registration list. -/
theorem dispatch_eq_of_unique_match {α : Type} (v : APIVersion) :
    ∀ (ms : List (VersionedMethod α)) (m : VersionedMethod α),
      m ∈ ms → m.matchesVersion v = true →
      (∀ m' ∈ ms, m'.matchesVersion v = true → m' = m) →
      dispatch ms v = .ok m.func := by
  intro ms
  induction ms with
  | nil => intro m hm; cases hm
  | cons a rest ih =>
    intro m hm hmatch huniq
    unfold dispatch
    by_cases ha : a.matchesVersion v = true
    · rw [if_pos ha, huniq a (List.mem_cons_self a rest) ha]
    · rw [if_neg ha]
      have hm' : m ∈ rest := by
        cases List.mem_cons.mp hm with
        | inl h => rw [h] at hmatch; exact absurd hmatch ha
        | inr h => exact h
      exact ih m hm' hmatch
        (fun m' hmem hma => huniq m' (List.mem_cons_of_mem a hmem) hma)

/-- When no registered window contains the version, dispatch fails with
VersionNotFoundForAPIMethod and invokes nothing. -/
theorem dispatch_eq_error_of_no_match {α : Type} (v : APIVersion) :
    ∀ ms : List (VersionedMethod α),
      (∀ m ∈ ms, m.matchesVersion v = false) →
      dispatch ms v = .error "VersionNotFoundForAPIMethod" := by
  intro ms
  induction ms with
  | nil => intro _; rfl
  | cons a rest ih =>
    intro h
    unfold dispatch
    rw [if_neg (by simp [h a (List.mem_cons_self a rest)])]
    exact ih (fun m hm => h m (List.mem_cons_of_mem a hm))

/-- C1: dispatch over inclusive version windows selects the unique window
containing the callers version and fails with VersionNotFoundForAPIMethod,
invoking no implementation, when no window contains it; on the registered
force_delete windows, version 1.5 routes to the 1.0-2.6 implementation,
version 2.7 routes to the 2.7-unbounded implementation, and version 0.9
fails; the migrate_share windows route likewise. -/
theorem dispatch_version_windows :
    (∀ (α : Type) (ms : List (VersionedMethod α)) (v : APIVersion)
        (m : VersionedMethod α),
      m ∈ ms → m.matchesVersion v = true →
      (∀ m' ∈ ms, m'.matchesVersion v = true → m' = m) →
      dispatch ms v = .ok m.func)
    ∧ (∀ (α : Type) (ms : List (VersionedMethod α)) (v : APIVersion),
      (∀ m ∈ ms, m.matchesVersion v = false) →
      dispatch ms v = .error "VersionNotFoundForAPIMethod")
    ∧ dispatch forceDeleteMethods ⟨1, 5⟩ = .ok forceDeleteImplOld
    ∧ dispatch forceDeleteMethods ⟨2, 7⟩ = .ok forceDeleteImplNew
    ∧ dispatch forceDeleteMethods ⟨0, 9⟩
        = .error "VersionNotFoundForAPIMethod"
    ∧ dispatch migrateShareMethods ⟨2, 5⟩ = .ok migrateShareImplOld
    ∧ dispatch migrateShareMethods ⟨2, 7⟩ = .ok migrateShareImplNew
    ∧ dispatch migrateShareMethods ⟨2, 4⟩
        = .error "VersionNotFoundForAPIMethod" :=
  ⟨fun _ ms v m hm hmatch huniq =>
      dispatch_eq_of_unique_match v ms m hm hmatch huniq,
   fun _ ms v h => dispatch_eq_error_of_no_match v ms h,
   rfl, rfl, rfl, rfl, rfl, rfl⟩

/-- C1 witness: the unique-window clause applied to the concrete
force_delete registry at version 1.5, and the no-window clause at version
0.9. -/
theorem dispatch_version_windows_witness :
    dispatch forceDeleteMethods ⟨1, 5⟩ = .ok forceDeleteImplOld
    ∧ dispatch forceDeleteMethods ⟨0, 9⟩
        = .error "VersionNotFoundForAPIMethod" := by
  constructor
  · exact dispatch_version_windows.1 _ forceDeleteMethods ⟨1, 5⟩
      ⟨"force_delete", ⟨1, 0⟩, some ⟨2, 6⟩, forceDeleteImplOld⟩
      (by simp [forceDeleteMethods])
      (by decide)
      (by
        intro m' hm' hma
        rcases (by simpa [forceDeleteMethods] using hm' :
            m' = ⟨"force_delete", ⟨1, 0⟩, some ⟨2, 6⟩, forceDeleteImplOld⟩
            ∨ m' = ⟨"force_delete", ⟨2, 7⟩, none, forceDeleteImplNew⟩)
          with rfl | rfl
        · rfl
        · exact absurd hma (by decide))
  · exact dispatch_version_windows.2.1 _ forceDeleteMethods ⟨0, 9⟩ (by decide)
